import Mathlib

/-!
Verification of the RepetierServer print-host client
(`src/slic3r/Utils/RepetierServer.cpp`).

The component issues a synchronous GET probe (`test`), a synchronous
multipart POST (`upload`), and builds URLs with `make_url`.  The HTTP
transport (`Http`) and the JSON parser (`boost::property_tree`) are external
black boxes, so their observable outcomes are inputs of the embedding:
a probe call is determined by whether the transport called `on_error` or
`on_complete`, and in the latter case by the result of parsing the body
(`read_json` throwing, or a tree from which `version` and `name` are read).
The embedded functions are total Lean functions returning the boolean result
together with the observable effects (the out-parameter `msg`, the messages
handed to `error_fn`, diagnostic cancellation log entries, the POST URL).
-/

namespace RepetierServer

/-- A transfer-progress snapshot (`Http::Progress`): the byte counters the
transport reports to the progress callback. -/
structure Progress where
  dltotal : Nat
  dlnow : Nat
  ultotal : Nat
  ulnow : Nat
deriving Repr, DecidableEq

/-- The two fields `test` reads from a successfully parsed response body:
`ptree.get_optional<std::string>("version")` and
`ptree.get_optional<std::string>("name")`. -/
structure ParsedResponse where
  version : Option String
  name : Option String
deriving Repr, DecidableEq

/-- Outcome of `pt::read_json` on the response body: either it throws
(malformed JSON) or it yields a tree, of which only the `version` and `name`
lookups matter to `test`. -/
inductive ParseResult where
  | fail : ParseResult
  | ok : ParsedResponse → ParseResult
deriving Repr, DecidableEq

/-- Outcome of the synchronous GET issued by `test`: the transport fires
exactly one of `on_error` (body, error text, HTTP status) or `on_complete`
(a body, carried here as the outcome of parsing it). -/
inductive HttpOutcome where
  | error : String → String → Nat → HttpOutcome
  | complete : ParseResult → HttpOutcome
deriving Repr, DecidableEq

/-- Modelled from the spec: `PrintHost::format_error` is defined outside this
repository slice; per the spec it combines the transport error text, the HTTP
status code and the raw response body into one display string, used
identically by the probe and upload failure paths. -/
def format_error (body error : String) (status : Nat) : String :=
  error ++ " HTTP " ++ toString status ++ " body: " ++ body

/-- `boost::starts_with s pre` / `s.find(pre) == 0`: `pre` is a prefix of
`s`, character by character. -/
def starts_with (s pre : String) : Bool :=
  pre.data.isPrefixOf s.data

/-- `host.back()` compared with the slash character: the last character of
`s` is a slash (an empty `s` has no last character). -/
def ends_with_slash (s : String) : Bool :=
  match s.data.getLast? with
  | some c => c == '/'
  | none => false

/-- `RepetierServer::validate_version_text`: an absent `name` is accepted; a
present `name` must start with "Repetier-Server"
(`boost::starts_with(*version_text, "Repetier-Server")`). -/
def validate_version_text (version_text : Option String) : Bool :=
  match version_text with
  | some t => starts_with t "Repetier-Server"
  | none => true

/-- `RepetierServer::test`, shallowly embedded.  `msg` is the value of the
caller-supplied out-parameter on entry; the result is the returned `res`
paired with the final value of `msg`. -/
def test (outcome : HttpOutcome) (msg : String) : Bool × String :=
  match outcome with
  | .error body err status => (false, format_error body err status)
  | .complete .fail => (false, "Could not parse server response")
  | .complete (.ok r) =>
      match r.version with
      | none => (false, msg)
      | some _ =>
          if validate_version_text r.name then (true, msg)
          else (false, "Mismatched type of print host: " ++ r.name.getD "Repetier-Server")

/-- `RepetierServer::make_url`: a host already carrying an `http://` or
`https://` scheme is joined with `path`, inserting `/` only when the host
does not end with one; a scheme-less host is given the `http://` scheme and
joined with `/`. -/
def make_url (host path : String) : String :=
  if starts_with host "http://" || starts_with host "https://" then
    if ends_with_slash host then host ++ path
    else host ++ "/" ++ path
  else
    "http://" ++ host ++ "/" ++ path

/-- The path `upload` hands to `make_url`:
`(boost::format("/printer/%1%/%2%") % (start_print ? "job" : "model") % printername).str()`. -/
def upload_path (start_print : Bool) (printername : String) : String :=
  "/printer/" ++ (if start_print then "job" else "model") ++ "/" ++ printername

/-- The fields of `PrintHostUpload` used by `upload`. -/
structure UploadData where
  source_path : String
  target_path : String
  start_print : Bool
deriving Repr, DecidableEq

/-- The terminal callback the POST transport fires when the transfer is not
canceled: `on_complete` (body, status) or `on_error` (body, error, status). -/
inductive PostTerminal where
  | complete : String → Nat → PostTerminal
  | error : String → String → Nat → PostTerminal
deriving Repr, DecidableEq

/-- Environment of one `upload` call: the outcome of the probe GET, the
progress snapshots the POST transport would deliver, and the terminal
callback it would fire if the transfer is not canceled. -/
structure UploadEnv where
  probe : HttpOutcome
  events : List Progress
  terminal : PostTerminal
deriving Repr, DecidableEq

/-- Observable effects of one `upload` call: the returned boolean, the
messages handed to `error_fn` in order, the number of "Upload canceled"
diagnostic log entries, and the URL of the multipart POST when one was
issued. -/
structure UploadResult where
  ret : Bool
  errors : List String
  cancel_logs : Nat
  posted : Option String
deriving Repr, DecidableEq

/-- Modelled from the spec: the `Http` transport (outside this repository
slice) invokes the progress callback once per delivered snapshot, with the
cancel flag clear; if the callback sets the flag the transfer aborts at that
point and no further progress, completion or error callback fires.  The
`on_progress` handler installed by `upload` forwards to the caller-supplied
callback and, when it observes the flag set, emits one diagnostic log entry
and clears `res`.  Returns (canceled, number of cancellation log entries). -/
def run_progress (progress_fn : Progress → Bool → Bool) :
    List Progress → Bool × Nat
  | [] => (false, 0)
  | p :: ps =>
      if progress_fn p false then (true, 1)
      else run_progress progress_fn ps

/-- `RepetierServer::upload`, shallowly embedded over an `UploadEnv`.
`host` and `printername` are the configuration fields of the client;
`progress_fn` models the caller-supplied `prorgess_fn` (reading the cancel
flag and returning its new value).  First the probe is re-run with an empty
`test_msg`; on probe failure `error_fn` receives the probe message and no
POST is issued.  Otherwise the POST URL is built and the transfer runs:
cancellation yields failure with a diagnostic log and no `error_fn` call,
a transport error hands `format_error`-formatted text to `error_fn`, and
completion leaves the result true. -/
def upload (host printername : String) (u : UploadData)
    (progress_fn : Progress → Bool → Bool) (env : UploadEnv) : UploadResult :=
  let t := test env.probe ""
  if t.1 then
    let url := make_url host (upload_path u.start_print printername)
    let pr := run_progress progress_fn env.events
    if pr.1 then
      ⟨false, [], pr.2, some url⟩
    else
      match env.terminal with
      | .complete _ _ => ⟨true, [], 0, some url⟩
      | .error body err status => ⟨false, [format_error body err status], 0, some url⟩
  else
    ⟨false, [t.2], 0, none⟩

/-- If the transfer was canceled, exactly one cancellation log entry was
emitted. -/
theorem run_progress_canceled_logs (progress_fn : Progress → Bool → Bool)
    (l : List Progress) (h : (run_progress progress_fn l).1 = true) :
    (run_progress progress_fn l).2 = 1 := by
  induction l with
  | nil => simp [run_progress] at h
  | cons p ps ih =>
      by_cases hc : progress_fn p false = true
      · simp [run_progress, hc]
      · simp only [Bool.not_eq_true] at hc
        have he : run_progress progress_fn (p :: ps) = run_progress progress_fn ps := by
          simp [run_progress, hc]
        rw [he] at h
        rw [he]
        exact ih h

/-- C1: when the connectivity probe fails, `upload` hands the probe's
message to `error_fn`, returns false, and never issues the multipart POST
(no POST URL is built). -/
theorem upload_probe_fail (host printername : String) (u : UploadData)
    (progress_fn : Progress → Bool → Bool) (env : UploadEnv)
    (h : (test env.probe "").1 = false) :
    upload host printername u progress_fn env =
      ⟨false, [(test env.probe "").2], 0, none⟩ := by
  simp [upload, h]

theorem upload_probe_fail_witness :
    (test (HttpOutcome.error "body" "connection refused" 404) "").1 = false ∧
    upload "example.com" "MyPrinter" ⟨"local.gcode", "remote.gcode", true⟩
        (fun _ c => c)
        ⟨HttpOutcome.error "body" "connection refused" 404, [],
          PostTerminal.complete "ok" 200⟩ =
      ⟨false, [(test (HttpOutcome.error "body" "connection refused" 404) "").2],
        0, none⟩ :=
  ⟨rfl, upload_probe_fail "example.com" "MyPrinter"
    ⟨"local.gcode", "remote.gcode", true⟩ (fun _ c => c)
    ⟨HttpOutcome.error "body" "connection refused" 404, [],
      PostTerminal.complete "ok" 200⟩ rfl⟩

/-- C2: when the transport succeeds and the body parses as JSON with a
`version` key, the probe succeeds iff the optional `name` field is absent or
its value starts with "Repetier-Server". -/
theorem test_success_iff_name_ok (r : ParsedResponse) (msg v : String)
    (hv : r.version = some v) :
    (test (HttpOutcome.complete (ParseResult.ok r)) msg).1 = true ↔
      (r.name = none ∨
        ∃ n, r.name = some n ∧ starts_with n "Repetier-Server" = true) := by
  cases hn : r.name with
  | none => simp [test, hv, hn, validate_version_text]
  | some n =>
      by_cases hs : starts_with n "Repetier-Server" = true
      · simp [test, hv, hn, validate_version_text, hs]
      · simp only [Bool.not_eq_true] at hs
        simp [test, hv, hn, validate_version_text, hs]

theorem test_success_iff_name_ok_witness :
    ((test (HttpOutcome.complete (ParseResult.ok ⟨some "1.0", none⟩)) "").1 = true ↔
      ((⟨some "1.0", none⟩ : ParsedResponse).name = none ∨
        ∃ n, (⟨some "1.0", none⟩ : ParsedResponse).name = some n ∧
          starts_with n "Repetier-Server" = true)) :=
  test_success_iff_name_ok ⟨some "1.0", none⟩ "" "1.0" rfl

/-- C3: when the progress callback sets the cancel flag on some invocation
(while the probe succeeded, so the POST is in flight), `upload` returns
false, `error_fn` is never invoked, and exactly one diagnostic cancellation
log entry is emitted. -/
theorem upload_cancel (host printername : String) (u : UploadData)
    (progress_fn : Progress → Bool → Bool) (env : UploadEnv)
    (hp : (test env.probe "").1 = true)
    (hc : (run_progress progress_fn env.events).1 = true) :
    (upload host printername u progress_fn env).ret = false ∧
    (upload host printername u progress_fn env).errors = [] ∧
    (upload host printername u progress_fn env).cancel_logs = 1 := by
  simp [upload, hp, hc, run_progress_canceled_logs progress_fn env.events hc]

theorem upload_cancel_witness :
    (test (HttpOutcome.complete (ParseResult.ok ⟨some "1.0", none⟩)) "").1 = true ∧
    (run_progress (fun _ _ => true) [⟨100, 0, 100, 10⟩]).1 = true ∧
    (upload "example.com" "MyPrinter" ⟨"local.gcode", "remote.gcode", false⟩
        (fun _ _ => true)
        ⟨HttpOutcome.complete (ParseResult.ok ⟨some "1.0", none⟩),
          [⟨100, 0, 100, 10⟩], PostTerminal.complete "ok" 200⟩).ret = false ∧
    (upload "example.com" "MyPrinter" ⟨"local.gcode", "remote.gcode", false⟩
        (fun _ _ => true)
        ⟨HttpOutcome.complete (ParseResult.ok ⟨some "1.0", none⟩),
          [⟨100, 0, 100, 10⟩], PostTerminal.complete "ok" 200⟩).errors = [] ∧
    (upload "example.com" "MyPrinter" ⟨"local.gcode", "remote.gcode", false⟩
        (fun _ _ => true)
        ⟨HttpOutcome.complete (ParseResult.ok ⟨some "1.0", none⟩),
          [⟨100, 0, 100, 10⟩], PostTerminal.complete "ok" 200⟩).cancel_logs = 1 := by
  refine ⟨rfl, rfl, ?_⟩
  have h := upload_cancel "example.com" "MyPrinter"
    ⟨"local.gcode", "remote.gcode", false⟩ (fun _ _ => true)
    ⟨HttpOutcome.complete (ParseResult.ok ⟨some "1.0", none⟩),
      [⟨100, 0, 100, 10⟩], PostTerminal.complete "ok" 200⟩ rfl rfl
  exact h

/-- C4: the three spec examples of `make_url`, together with its general
behavior: a host with an `http://` or `https://` scheme is concatenated with
the path, inserting `/` only when the host does not already end with one,
and a scheme-less host is prefixed with `http://` and joined with `/`. -/
theorem make_url_spec :
    make_url "example.com" "printer/info" = "http://example.com/printer/info" ∧
    make_url "http://example.com/" "printer/info" = "http://example.com/printer/info" ∧
    make_url "https://example.com" "printer/info" = "https://example.com/printer/info" ∧
    (∀ host path : String,
      (starts_with host "http://" = true ∨ starts_with host "https://" = true) →
      make_url host path =
        if ends_with_slash host then host ++ path else host ++ "/" ++ path) ∧
    (∀ host path : String,
      starts_with host "http://" = false → starts_with host "https://" = false →
      make_url host path = "http://" ++ host ++ "/" ++ path) := by
  refine ⟨by decide, by decide, by decide, ?_, ?_⟩
  · intro host path hs
    rcases hs with hs | hs <;> simp [make_url, hs]
  · intro host path h1 h2
    simp [make_url, h1, h2]

theorem make_url_spec_witness :
    (starts_with "http://a.net" "http://" = true ∨
      starts_with "http://a.net" "https://" = true) ∧
    make_url "http://a.net" "p" =
      (if ends_with_slash "http://a.net" then "http://a.net" ++ "p"
       else "http://a.net" ++ "/" ++ "p") ∧
    starts_with "a.net" "http://" = false ∧
    starts_with "a.net" "https://" = false ∧
    make_url "a.net" "p" = "http://" ++ "a.net" ++ "/" ++ "p" :=
  ⟨Or.inl (by decide),
   make_url_spec.2.2.2.1 "http://a.net" "p" (Or.inl (by decide)),
   by decide, by decide,
   make_url_spec.2.2.2.2 "a.net" "p" (by decide) (by decide)⟩

/-- C7: when the transport and JSON parse succeed, `version` is present and
`name` is present but does not start with "Repetier-Server", the probe fails
and its message states the mismatched print-host type and contains the
unexpected name as a substring. -/
theorem test_mismatch_message (r : ParsedResponse) (msg v n : String)
    (hv : r.version = some v) (hn : r.name = some n)
    (hs : starts_with n "Repetier-Server" = false) :
    test (HttpOutcome.complete (ParseResult.ok r)) msg =
      (false, "Mismatched type of print host: " ++ n) ∧
    ∃ before after : String,
      (test (HttpOutcome.complete (ParseResult.ok r)) msg).2 =
        before ++ n ++ after := by
  have he : test (HttpOutcome.complete (ParseResult.ok r)) msg =
      (false, "Mismatched type of print host: " ++ n) := by
    simp [test, hv, hn, validate_version_text, hs]
  refine ⟨he, "Mismatched type of print host: ", "", ?_⟩
  rw [he]
  simp

theorem test_mismatch_message_witness :
    (⟨some "1.0", some "OctoPrint"⟩ : ParsedResponse).version = some "1.0" ∧
    (⟨some "1.0", some "OctoPrint"⟩ : ParsedResponse).name = some "OctoPrint" ∧
    starts_with "OctoPrint" "Repetier-Server" = false ∧
    (test (HttpOutcome.complete (ParseResult.ok ⟨some "1.0", some "OctoPrint"⟩)) "" =
        (false, "Mismatched type of print host: " ++ "OctoPrint") ∧
      ∃ before after : String,
        (test (HttpOutcome.complete
          (ParseResult.ok ⟨some "1.0", some "OctoPrint"⟩)) "").2 =
          before ++ "OctoPrint" ++ after) :=
  ⟨rfl, rfl, by decide,
   test_mismatch_message ⟨some "1.0", some "OctoPrint"⟩ "" "1.0" "OctoPrint"
     rfl rfl (by decide)⟩

/-- C8: when the transport succeeds and the body parses as JSON but lacks a
`version` key, the probe fails and the `msg` out-parameter keeps its entry
value. -/
theorem test_missing_version (r : ParsedResponse) (msg : String)
    (hv : r.version = none) :
    test (HttpOutcome.complete (ParseResult.ok r)) msg = (false, msg) := by
  simp [test, hv]

theorem test_missing_version_witness :
    (⟨none, some "Repetier-Server 0.92.2"⟩ : ParsedResponse).version = none ∧
    test (HttpOutcome.complete
        (ParseResult.ok ⟨none, some "Repetier-Server 0.92.2"⟩)) "" =
      (false, "") :=
  ⟨rfl, test_missing_version ⟨none, some "Repetier-Server 0.92.2"⟩ "" rfl⟩

/-- C9: when the transport succeeds but the body is not parseable as JSON,
the probe fails with the fixed generic parse-failure message; in the
embedding `test` is a total function, so the parsing exception never escapes
the component. -/
theorem test_parse_failure (msg : String) :
    test (HttpOutcome.complete ParseResult.fail) msg =
      (false, "Could not parse server response") := rfl

/-- C10: whenever the probe succeeds, the `msg` out-parameter is left exactly
as it was on entry. -/
theorem test_success_msg_unchanged (outcome : HttpOutcome) (msg : String)
    (h : (test outcome msg).1 = true) :
    (test outcome msg).2 = msg := by
  cases outcome with
  | error body err status => simp [test] at h
  | complete pr =>
      cases pr with
      | fail => simp [test] at h
      | ok r =>
          cases hv : r.version with
          | none => simp [test, hv] at h
          | some v =>
              by_cases hb : validate_version_text r.name = true
              · simp [test, hv, hb]
              · simp only [Bool.not_eq_true] at hb
                simp [test, hv, hb] at h

theorem test_success_msg_unchanged_witness :
    (test (HttpOutcome.complete
        (ParseResult.ok ⟨some "1.0", some "Repetier-Server 0.92.2"⟩))
      "untouched").1 = true ∧
    (test (HttpOutcome.complete
        (ParseResult.ok ⟨some "1.0", some "Repetier-Server 0.92.2"⟩))
      "untouched").2 = "untouched" :=
  ⟨by decide,
   test_success_msg_unchanged
     (HttpOutcome.complete
       (ParseResult.ok ⟨some "1.0", some "Repetier-Server 0.92.2"⟩))
     "untouched" (by decide)⟩

/-- Whenever the probe succeeds, `upload` issues the POST at the URL built
by `make_url` from the path selected by `upload_path`, on every outcome of
the transfer (cancel, error or completion). -/
theorem upload_posted_url (host printername : String) (u : UploadData)
    (progress_fn : Progress → Bool → Bool) (env : UploadEnv)
    (hp : (test env.probe "").1 = true) :
    (upload host printername u progress_fn env).posted =
      some (make_url host (upload_path u.start_print printername)) := by
  simp only [upload, hp, if_true]
  split
  · rfl
  · cases env.terminal <;> rfl

/-- C6: the path handed to the URL builder is `/printer/job/{printerName}`
when `start_print` is true and `/printer/model/{printerName}` when it is
false, with `printername` interpolated verbatim; `upload` builds its POST
URL from exactly this path. -/
theorem upload_path_segments (host printername : String) (u : UploadData)
    (progress_fn : Progress → Bool → Bool) (env : UploadEnv)
    (hp : (test env.probe "").1 = true) :
    upload_path true printername = "/printer/job/" ++ printername ∧
    upload_path false printername = "/printer/model/" ++ printername ∧
    (upload host printername u progress_fn env).posted =
      some (make_url host (upload_path u.start_print printername)) := by
  refine ⟨by simp [upload_path], by simp [upload_path],
    upload_posted_url host printername u progress_fn env hp⟩

theorem upload_path_segments_witness :
    (test (HttpOutcome.complete (ParseResult.ok ⟨some "1.0", none⟩)) "").1 = true ∧
    upload_path true "MyPrinter" = "/printer/job/" ++ "MyPrinter" ∧
    upload_path false "MyPrinter" = "/printer/model/" ++ "MyPrinter" ∧
    (upload "example.com" "MyPrinter" ⟨"local.gcode", "remote.gcode", true⟩
        (fun _ c => c)
        ⟨HttpOutcome.complete (ParseResult.ok ⟨some "1.0", none⟩), [],
          PostTerminal.complete "ok" 200⟩).posted =
      some (make_url "example.com" (upload_path true "MyPrinter")) :=
  ⟨rfl, upload_path_segments "example.com" "MyPrinter"
    ⟨"local.gcode", "remote.gcode", true⟩ (fun _ c => c)
    ⟨HttpOutcome.complete (ParseResult.ok ⟨some "1.0", none⟩), [],
      PostTerminal.complete "ok" 200⟩ rfl⟩

/-- C5 fails on the code: `upload` passes a path that already starts with a
slash, and `make_url` inserts its own separator, so for a host not ending in
a slash the POST URL contains a double slash before `printer`. -/
theorem upload_url_double_slash :
    (upload "example.com" "MyPrinter" ⟨"local.gcode", "remote.gcode", true⟩
        (fun _ c => c)
        ⟨HttpOutcome.complete (ParseResult.ok ⟨some "1.0", none⟩), [],
          PostTerminal.complete "ok" 200⟩).posted =
      some "http://example.com//printer/job/MyPrinter" ∧
    "http://example.com//printer/job/MyPrinter" ≠
      "http://example.com/printer/job/MyPrinter" :=
  ⟨by decide, by decide⟩

/-- C5 (amended): for any host not ending in a slash, the POST URL is the
scheme-qualified host followed by `//printer/{job|model}/{printerName}` —
two slashes, not one, separate the base host from the `printer` segment. -/
theorem upload_url_form (host printername : String) (u : UploadData)
    (progress_fn : Progress → Bool → Bool) (env : UploadEnv)
    (hs : ends_with_slash host = false)
    (hp : (test env.probe "").1 = true) :
    (upload host printername u progress_fn env).posted =
      some ((if starts_with host "http://" || starts_with host "https://"
             then host else "http://" ++ host) ++
            "//printer/" ++ (if u.start_print then "job" else "model") ++
            "/" ++ printername) := by
  rw [upload_posted_url host printername u progress_fn env hp]
  have hl : ∀ X : List Char,
      ("/" : String).data ++ (("/printer/" : String).data ++ X) =
        ("//printer/" : String).data ++ X := by
    intro X
    rw [← List.append_assoc]
    congr 1
  by_cases hb : (starts_with host "http://" || starts_with host "https://") = true
  · simp only [make_url, upload_path, hb, hs, if_true, if_false,
      Bool.false_eq_true, Option.some.injEq]
    simp [String.ext_iff, String.data_append, List.append_assoc, hl]
  · simp only [Bool.not_eq_true] at hb
    simp only [make_url, upload_path, hb, Bool.false_eq_true, if_false,
      Option.some.injEq]
    simp [String.ext_iff, String.data_append, List.append_assoc, hl]

theorem upload_url_form_witness :
    ends_with_slash "example.com" = false ∧
    (test (HttpOutcome.complete (ParseResult.ok ⟨some "1.0", none⟩)) "").1 = true ∧
    (upload "example.com" "MyPrinter" ⟨"local.gcode", "remote.gcode", false⟩
        (fun _ c => c)
        ⟨HttpOutcome.complete (ParseResult.ok ⟨some "1.0", none⟩), [],
          PostTerminal.complete "ok" 200⟩).posted =
      some ((if starts_with "example.com" "http://" ||
                starts_with "example.com" "https://"
             then "example.com" else "http://" ++ "example.com") ++
            "//printer/" ++ (if false then "job" else "model") ++
            "/" ++ "MyPrinter") :=
  ⟨rfl, rfl, upload_url_form "example.com" "MyPrinter"
    ⟨"local.gcode", "remote.gcode", false⟩ (fun _ c => c)
    ⟨HttpOutcome.complete (ParseResult.ok ⟨some "1.0", none⟩), [],
      PostTerminal.complete "ok" 200⟩ rfl rfl⟩

end RepetierServer
